import Mathlib

/-!
Shallow embedding of the go-dashscope client library (package `dashscope`),
covering:

* the asynchronous task poller `WaitForTaskWithClient` (image_synthesis.go);
* the realtime speech-recognition session `Recognition`
  (`Start` / `Stop` / `SendAudioFrame` / `readLoop`, recognition.go);
* the multimodal dialog session `MultiModalDialog`
  (`SendAudio` / `readLoop`, multimodal source file);
* the speech synthesizer `SpeechSynthesizer.Call` receive loop
  (speech-synthesis source file).

Network transport is abstracted: inbound websocket messages become explicit
lists of decoded message values, outbound writes become an explicit list of
sent messages, and the HTTP `GetTaskWithClient` call becomes an oracle from
poll number to outcome.  Machine time (the backoff sleeps, the 10-second
stop timeout) is abstracted to the recorded wait amounts and a boolean
saying whether the reader loop terminated within the window.
-/

deriving instance DecidableEq for Except

namespace GoDashscope

/-! ## Task poller (image_synthesis.go) -/

/-- Task status string constants (`TaskStatusPending` etc. in the Go source). -/
def TaskStatusPending : String := "PENDING"

def TaskStatusRunning : String := "RUNNING"

def TaskStatusSucceeded : String := "SUCCEEDED"

def TaskStatusFailed : String := "FAILED"

def TaskStatusCanceled : String := "CANCELED"

def TaskStatusUnknown : String := "UNKNOWN"

/-- Go `TaskOutput`: common output fields of an async task; `results` stays
an opaque raw-JSON string, as in the source (`json.RawMessage`). -/
structure TaskOutput where
  taskID : String
  taskStatus : String
  results : String
deriving DecidableEq

/-- Go `TaskResponse`: generic response structure for async tasks.  The
`usage` field is `interface\x7b\x7d` in Go and is kept as an opaque optional
string. -/
structure TaskResponse where
  requestID : String
  statusCode : Nat
  code : String
  message : String
  output : TaskOutput
  usage : Option String
deriving DecidableEq

/-- The terminal-status test inside `WaitForTaskWithClient`:
`SUCCEEDED`, `FAILED` or `CANCELED`. -/
def isTerminalStatus (s : String) : Bool :=
  s == TaskStatusSucceeded || s == TaskStatusFailed || s == TaskStatusCanceled

/-- One backoff update of `WaitForTaskWithClient`, performed after the poll
numbered `step` (1-based): when `waitSeconds < maxWaitSeconds` (5) and
`step` is a multiple of `incrementSteps` (3), `waitSeconds` doubles and is
clamped back to 5. -/
def backoffUpdate (waitSeconds step : Nat) : Nat :=
  if waitSeconds < 5 ∧ step % 3 = 0 then min (waitSeconds * 2) 5 else waitSeconds

/-- The polling loop of `WaitForTaskWithClient`.  `getTask n` is the
outcome of the `n`-th `GetTaskWithClient` call (1-based); an `error`
models a transport/HTTP failure, which the Go code returns immediately.
`fuel` bounds the number of iterations of the unbounded Go `for` loop.
Returns the loop's result together with the list of waits performed (in
seconds), in order. -/
def waitForTaskLoop (getTask : Nat → Except String TaskResponse) :
    Nat → Nat → Nat → Except String TaskResponse × List Nat
  | 0, _, _ => (Except.error "out of fuel", [])
  | fuel + 1, waitSeconds, step =>
    match getTask (step + 1) with
    | Except.error e => (Except.error e, [])
    | Except.ok resp =>
      if isTerminalStatus resp.output.taskStatus then (Except.ok resp, [])
      else
        let w := backoffUpdate waitSeconds (step + 1)
        let r := waitForTaskLoop getTask fuel w (step + 1)
        (r.1, w :: r.2)

/-- `WaitForTaskWithClient`: initial wait 1 second, poll counter `step`
starting at 0. -/
def WaitForTaskWithClient (getTask : Nat → Except String TaskResponse)
    (fuel : Nat) : Except String TaskResponse × List Nat :=
  waitForTaskLoop getTask fuel 1 0

/-- The sequence of backoff waits recorded by a `WaitForTaskWithClient`
run. -/
def pollWaits (getTask : Nat → Except String TaskResponse) (fuel : Nat) :
    List Nat :=
  (WaitForTaskWithClient getTask fuel).2

/-- Iterated backoff update: the wait value after processing polls
`step + 1, …, step + m` starting from `waitSeconds`. -/
def backoffIter (waitSeconds step : Nat) : Nat → Nat
  | 0 => waitSeconds
  | m + 1 => backoffUpdate (backoffIter waitSeconds step m) (step + m + 1)

/-- A concrete task snapshot for task `T1` with the given status. -/
def mkTaskResponse (status : String) : TaskResponse :=
  { requestID := "req", statusCode := 200, code := "", message := "",
    output := { taskID := "T1", taskStatus := status, results := "" },
    usage := none }

/-- Oracle whose every status read reports `RUNNING`. -/
def runningOracle : Nat → Except String TaskResponse :=
  fun _ => Except.ok (mkTaskResponse TaskStatusRunning)

/-- Scenario A oracle: polls 1 and 2 report `RUNNING`, poll 3 reports
`SUCCEEDED`. -/
def scenarioOracle : Nat → Except String TaskResponse := fun n =>
  if n < 3 then Except.ok (mkTaskResponse TaskStatusRunning)
  else Except.ok (mkTaskResponse TaskStatusSucceeded)

/-- A concrete `FAILED` task snapshot. -/
def failedResp : TaskResponse := mkTaskResponse TaskStatusFailed

/-- Oracle whose every status read reports `FAILED`. -/
def failedOracle : Nat → Except String TaskResponse :=
  fun _ => Except.ok failedResp

/-! ## Recognition session (recognition.go) -/

/-- Messages written by `Recognition` to the websocket: the `run-task`
control message of `Start`, the `finish-task` control message of `Stop`,
and binary audio frames of `SendAudioFrame`. -/
inductive RecOutMsg where
  | runTask (taskID : String)
  | finishTask (taskID : String)
  | binaryFrame (data : List Nat)
deriving DecidableEq

/-- Invocations of the `RecognitionCallback` interface.  `onEvent` carries
the `RecognitionResult`'s sentence list (opaque stand-ins for the sentence
maps) and usage value. -/
inductive RecCb where
  | onOpen
  | onComplete
  | onError (msg : String)
  | onClose
  | onEvent (sentences : List String) (usage : Option String)
deriving DecidableEq

/-- The mutable fields of Go's `Recognition` shared among `Start`, `Stop`,
`SendAudioFrame` and the reader loop.  `sent` records every message written
to the websocket in order; `cbTrace` records callback invocations made by
the writer-side operations; `startedObserved` is a ghost flag for whether a
`task-started` event has been read from the server (the Go struct keeps no
such flag); `forceClosed` is a ghost flag for `Stop` having closed the
connection after its timeout.  The configuration strings (model, API key,
format, sample rate) do not influence any modelled control flow and are
omitted. -/
structure RecognitionState where
  running : Bool
  taskID : String
  connOpen : Bool
  callbackSet : Bool
  startedObserved : Bool
  sent : List RecOutMsg
  cbTrace : List RecCb
  forceClosed : Bool
deriving DecidableEq

/-- The state produced by `NewRecognition`: all fields at their Go zero
values. -/
def initialRecognition : RecognitionState :=
  { running := false, taskID := "", connOpen := false, callbackSet := false,
    startedObserved := false, sent := [], cbTrace := [], forceClosed := false }

/-- `Recognition.Start`: rejected when `running` is already true; otherwise
stores the callback and a fresh task id, dials the websocket (`dialOK`
models the dial outcome), marks the session running, writes the `run-task`
message (`writeOK` models the write outcome; on failure the connection is
closed and `running` reset), invokes `OnOpen` and spawns the reader loop.
Returns the Go error value alongside the updated state. -/
def Recognition.start (r : RecognitionState) (newTaskID : String)
    (dialOK writeOK : Bool) : Except String Unit × RecognitionState :=
  if r.running then (Except.error "recognition already started", r)
  else
    let r1 := { r with callbackSet := true, taskID := newTaskID }
    if !dialOK then (Except.error "dial failed", r1)
    else
      let r2 := { r1 with connOpen := true, running := true }
      if !writeOK then
        (Except.error "write failed",
          { r2 with connOpen := false, running := false })
      else
        (Except.ok (),
          { r2 with sent := r2.sent ++ [RecOutMsg.runTask newTaskID],
                    cbTrace := r2.cbTrace ++ [RecCb.onOpen] })

/-- `Recognition.SendAudioFrame`: rejected with `recognition not running`
when the `running` flag is false; otherwise the frame is written to the
websocket as a binary message (`writeOK` models the write outcome).  No
other condition is checked. -/
def Recognition.sendAudioFrame (r : RecognitionState) (writeOK : Bool)
    (data : List Nat) : Except String Unit × RecognitionState :=
  if !r.running then (Except.error "recognition not running", r)
  else if !writeOK then (Except.error "write failed", r)
  else (Except.ok (), { r with sent := r.sent ++ [RecOutMsg.binaryFrame data] })

/-- `Recognition.Stop`: a no-op when `running` is false.  Otherwise writes
the `finish-task` control message, then blocks until the reader loop
terminates or the 10-second timeout elapses; `loopDone` abstracts whether
the reader loop terminated within the window.  On timeout the connection is
force-closed.  Finally `running` is reset.  No callback is invoked. -/
def Recognition.stop (r : RecognitionState) (loopDone : Bool) :
    RecognitionState :=
  if !r.running then r
  else
    let r1 := { r with sent := r.sent ++ [RecOutMsg.finishTask r.taskID] }
    let r2 := if loopDone then r1
              else { r1 with connOpen := false, forceClosed := true }
    { r2 with running := false }

/-- The state right after a successful `Recognition.Start` on a fresh
client: `running` is true but no `task-started` event has been observed. -/
def startedNotObservedState : RecognitionState :=
  (Recognition.start initialRecognition "t1" true true).2

/-- The decoded `header` object of an inbound recognition text message.
`event` is `none` when the header has no `event` key whose value is a
string (Go's unchecked type assertion `header["event"].(string)` then
panics); `errorMessage` is `none` when `header["error_message"]` is
absent (`fmt` renders the `nil` as `<nil>`). -/
structure RecHeader where
  event : Option String
  errorMessage : Option String
deriving DecidableEq

/-- Go's `%v` rendering of the optional `error_message` value. -/
def fmtValue : Option String → String
  | none => "<nil>"
  | some s => s

/-- The decoded `payload` object of an inbound recognition text message;
`sentence` is the `output.sentence` object when present (an opaque
stand-in), `usage` the `usage` value when present. -/
structure RecPayload where
  sentence : Option String
  usage : Option String
deriving DecidableEq

/-- An inbound recognition text message after `json.Unmarshal`: `header` is
`none` when `resp["header"]` is not an object (the message is then silently
skipped), `payload` likewise. -/
structure RecTextMsg where
  header : Option RecHeader
  payload : Option RecPayload
deriving DecidableEq

/-- One inbound websocket delivery to `Recognition.readLoop`.  `readErr`
models `ReadMessage` failing (`closedConn` is whether the error text
contains `use of closed network connection`); `badJson` a text message on
which `json.Unmarshal` fails; `binary` a binary message (which the
recognition loop ignores — only text messages are handled). -/
inductive RecInMsg where
  | readErr (closedConn : Bool) (msg : String)
  | binary (data : List Nat)
  | badJson
  | text (msg : RecTextMsg)
deriving DecidableEq

/-- Outcome of processing one inbound message in a reader loop: keep
looping, return from the loop, or crash with a panic. -/
inductive StepRes where
  | cont
  | returned
  | crashed
deriving DecidableEq

/-- Processing of one inbound message by `Recognition.readLoop`: read
errors dispatch `OnError` (unless the connection was intentionally closed)
and return; `task-failed` dispatches `OnError` with the formatted
`error_message` and returns; `task-finished` dispatches `OnComplete` and
returns; `result-generated` dispatches `OnEvent` when a payload object is
present; a header without a string `event` value panics; every other
event value is skipped with no dispatch. -/
def recProcessMessage (running : Bool) (m : RecInMsg) : List RecCb × StepRes :=
  match m with
  | RecInMsg.readErr closedConn msg =>
      if running && !closedConn then ([RecCb.onError msg], StepRes.returned)
      else ([], StepRes.returned)
  | RecInMsg.binary _ => ([], StepRes.cont)
  | RecInMsg.badJson => ([RecCb.onError "json unmarshal error"], StepRes.cont)
  | RecInMsg.text t =>
      match t.header with
      | none => ([], StepRes.cont)
      | some h =>
        match h.event with
        | none => ([], StepRes.crashed)
        | some e =>
          if e = "task-failed" then
            ([RecCb.onError ("task failed: " ++ fmtValue h.errorMessage)],
              StepRes.returned)
          else if e = "task-finished" then ([RecCb.onComplete], StepRes.returned)
          else if e = "result-generated" then
            match t.payload with
            | none => ([], StepRes.cont)
            | some p =>
              ([RecCb.onEvent (match p.sentence with
                  | some s => [s]
                  | none => []) p.usage], StepRes.cont)
          else ([], StepRes.cont)

/-- How a finite inbound trace leaves a reader loop: `blocked` means the
trace was exhausted with the loop still waiting on `ReadMessage`;
`returned` a normal return; `crashed` an uncaught panic. -/
inductive LoopExit where
  | blocked
  | returned
  | crashed
deriving DecidableEq

/-- The recognition reader loop over a finite inbound trace, without the
deferred `OnClose`. -/
def recReadLoopAux (running : Bool) : List RecInMsg → List RecCb × LoopExit
  | [] => ([], LoopExit.blocked)
  | m :: rest =>
    match recProcessMessage running m with
    | (cbs, StepRes.cont) =>
        let r := recReadLoopAux running rest
        (cbs ++ r.1, r.2)
    | (cbs, StepRes.returned) => (cbs, LoopExit.returned)
    | (cbs, StepRes.crashed) => (cbs, LoopExit.crashed)

/-- `Recognition.readLoop` over a finite inbound trace: the deferred
`OnClose` fires whenever the loop function exits, normally or by panic. -/
def Recognition.readLoop (msgs : List RecInMsg) (running : Bool) :
    List RecCb × LoopExit :=
  match recReadLoopAux running msgs with
  | (cbs, LoopExit.blocked) => (cbs, LoopExit.blocked)
  | (cbs, LoopExit.returned) => (cbs ++ [RecCb.onClose], LoopExit.returned)
  | (cbs, LoopExit.crashed) => (cbs ++ [RecCb.onClose], LoopExit.crashed)

/-! ## Multimodal dialog session -/

/-- Response directive string constants from the Go const block. -/
def ResponseStarted : String := "Started"

def ResponseStopped : String := "Stopped"

def ResponseStateChanged : String := "DialogStateChanged"

def ResponseRequestAccepted : String := "RequestAccepted"

def ResponseSpeechStarted : String := "SpeechStarted"

def ResponseSpeechEnded : String := "SpeechEnded"

def ResponseRespondingStarted : String := "RespondingStarted"

def ResponseRespondingEnded : String := "RespondingEnded"

def ResponseSpeechContent : String := "SpeechContent"

def ResponseRespondingContent : String := "RespondingContent"

def ResponseError : String := "Error"

def ResponseHeartBeat : String := "HeartBeat"

/-- The decoded `payload.output` of a `MultiModalRealtimeResponse`; fields
absent in the JSON decode to their Go zero value `""`. -/
structure MMDOutput where
  directive : String
  dialogID : String
  text : String
deriving DecidableEq

/-- One inbound websocket delivery to `MultiModalDialog.readLoop`. -/
inductive MMDInMsg where
  | readErr (msg : String)
  | binary (data : List Nat)
  | badJson
  | text (out : MMDOutput)
deriving DecidableEq

/-- Invocations of the `MultiModalCallback` interface. -/
inductive MMDCb where
  | onConnected
  | onStarted (dialogID : String)
  | onStopped
  | onSpeechStarted
  | onSpeechEnded
  | onSpeechContent (text : String)
  | onRespondingStarted
  | onRespondingContent (text : String)
  | onRespondingEnded
  | onAudioData (data : List Nat)
  | onError (msg : String)
  | onClose (code : Nat) (reason : String)
deriving DecidableEq

/-- Processing of one inbound message by `MultiModalDialog.readLoop`:
returns the callbacks dispatched, the (possibly updated) dialog id, and
whether the loop keeps running.  A read error dispatches `OnError` and
returns; a binary message dispatches `OnAudioData`; a message that fails
`json.Unmarshal` is skipped silently; text messages dispatch by directive,
with the `Error` directive dispatching `OnError` and NOT leaving the loop,
and unrecognized directives skipped silently. -/
def mmdProcessMessage (dialogID : String) (m : MMDInMsg) :
    List MMDCb × String × Bool :=
  match m with
  | MMDInMsg.readErr msg => ([MMDCb.onError msg], dialogID, false)
  | MMDInMsg.binary data => ([MMDCb.onAudioData data], dialogID, true)
  | MMDInMsg.badJson => ([], dialogID, true)
  | MMDInMsg.text o =>
      if o.directive = ResponseStarted then
        ([MMDCb.onStarted o.dialogID], o.dialogID, true)
      else if o.directive = ResponseStopped then ([MMDCb.onStopped], dialogID, true)
      else if o.directive = ResponseSpeechStarted then
        ([MMDCb.onSpeechStarted], dialogID, true)
      else if o.directive = ResponseSpeechEnded then
        ([MMDCb.onSpeechEnded], dialogID, true)
      else if o.directive = ResponseSpeechContent then
        ([MMDCb.onSpeechContent o.text], dialogID, true)
      else if o.directive = ResponseRespondingStarted then
        ([MMDCb.onRespondingStarted], dialogID, true)
      else if o.directive = ResponseRespondingContent then
        ([MMDCb.onRespondingContent o.text], dialogID, true)
      else if o.directive = ResponseRespondingEnded then
        ([MMDCb.onRespondingEnded], dialogID, true)
      else if o.directive = ResponseError then
        ([MMDCb.onError ("server error: " ++ o.text)], dialogID, true)
      else ([], dialogID, true)

/-- The dialog reader loop over a finite inbound trace, without the
deferred `OnClose`; threads the dialog id through `Started` events. -/
def mmdReadLoopAux : List MMDInMsg → String → List MMDCb × String × LoopExit
  | [], d => ([], d, LoopExit.blocked)
  | m :: rest, d =>
    match mmdProcessMessage d m with
    | (cbs, d1, true) =>
        let r := mmdReadLoopAux rest d1
        (cbs ++ r.1, r.2)
    | (cbs, d1, false) => (cbs, d1, LoopExit.returned)

/-- `MultiModalDialog.readLoop` over a finite inbound trace: the deferred
`close(done)`/`OnClose(0, "connection closed")` fires when the loop
returns. -/
def MultiModalDialog.readLoop (msgs : List MMDInMsg) (dialogID : String) :
    List MMDCb × String × LoopExit :=
  match mmdReadLoopAux msgs dialogID with
  | (cbs, d, LoopExit.returned) =>
      (cbs ++ [MMDCb.onClose 0 "connection closed"], d, LoopExit.returned)
  | r => r

/-- Messages written by `MultiModalDialog` to the websocket. -/
inductive MMDOut where
  | startReq (taskID : String)
  | stopSpeechReq (taskID : String)
  | binaryFrame (data : List Nat)
deriving DecidableEq

/-- The mutable fields of Go's `MultiModalDialog` relevant to the writer
operations.  `startedObserved` is a ghost flag for whether a `Started`
directive has been read from the server (the Go struct keeps no such
flag). -/
structure DialogState where
  taskID : String
  dialogID : String
  connOpen : Bool
  startedObserved : Bool
  sent : List MMDOut
deriving DecidableEq

/-- The state produced by `NewDialog`: Go zero values. -/
def initialDialog : DialogState :=
  { taskID := "", dialogID := "", connOpen := false,
    startedObserved := false, sent := [] }

/-- `MultiModalDialog.Start`: dials the websocket, invokes `OnConnected`,
spawns the reader loop, stores a fresh task id and writes the `Start`
control message.  There is no guard of any kind. -/
def MultiModalDialog.start (d : DialogState) (newTaskID : String)
    (dialOK writeOK : Bool) : Except String Unit × DialogState :=
  if !dialOK then (Except.error "websocket dial failed", d)
  else
    let d1 := { d with connOpen := true, taskID := newTaskID }
    if !writeOK then (Except.error "write failed", d1)
    else (Except.ok (), { d1 with sent := d1.sent ++ [MMDOut.startReq newTaskID] })

/-- `MultiModalDialog.SendAudio`: writes the frame as a binary message with
no readiness check of any kind. -/
def MultiModalDialog.sendAudio (d : DialogState) (writeOK : Bool)
    (data : List Nat) : Except String Unit × DialogState :=
  if !writeOK then (Except.error "write failed", d)
  else (Except.ok (), { d with sent := d.sent ++ [MMDOut.binaryFrame data] })

/-- A dialog state right after a successful `Start`, before any server
event has been read. -/
def dialogAfterStart : DialogState :=
  (MultiModalDialog.start initialDialog "t1" true true).2

/-- Dialog trace for Scenario C: an `Error` directive carrying text `Y`,
followed by a `SpeechStarted` directive. -/
def errorThenSpeechMsgs : List MMDInMsg :=
  [MMDInMsg.text { directive := ResponseError, dialogID := "", text := "Y" },
   MMDInMsg.text { directive := ResponseSpeechStarted, dialogID := "", text := "" }]

/-! ## Speech synthesizer (SpeechSynthesizer.Call) -/

/-- `EventType` string constants from the Go source. -/
def EventTaskStarted : String := "task-started"

def EventResultGenerated : String := "result-generated"

def EventTaskFinished : String := "task-finished"

def EventTaskFailed : String := "task-failed"

/-- An inbound synthesizer text message after decoding into `wsResponse`:
`event`, `code` and `message` come from the header (zero value `""` when
absent); `usage` is the `characters` count when the payload carries a
usage object; `sentence` is the payload's `sentence` value when present
(an opaque stand-in). -/
structure SynTextMsg where
  event : String
  code : String
  message : String
  usage : Option Nat
  sentence : Option String
deriving DecidableEq

/-- One inbound websocket delivery to the `SpeechSynthesizer.Call` receive
loop. -/
inductive SynMsg where
  | readErr (msg : String)
  | binary (data : List Nat)
  | badJson
  | text (t : SynTextMsg)
deriving DecidableEq

/-- Invocations of the `ResultCallback` interface.  `onAudioFrame` is
`OnEvent` with only `AudioFrame` set, `onSentence` is `OnEvent` with
`Sentence` set, `onMeta` is `OnEvent` with only `Response` set. -/
inductive SynCb where
  | onOpen
  | onComplete
  | onError (msg : String)
  | onClose
  | onAudioFrame (data : List Nat)
  | onSentence (sentence : String)
  | onMeta
deriving DecidableEq

/-- The accumulating `finalResult` of `SpeechSynthesizer.Call`: the
concatenated audio bytes, the collected sentence objects and the last
usage statistics. -/
structure SynResult where
  audioData : List Nat
  sentences : List String
  usage : Option Nat
deriving DecidableEq

/-- Processing of one inbound message by the `Call` receive loop:
returns the updated accumulator, the callbacks dispatched, and `some`
result when the loop exits (`ok` on `task-finished`, `error` on a read
error or `task-failed`).  Binary messages are appended to the accumulator
and forwarded via `OnEvent` as an `AudioFrame`; unknown events are
ignored silently. -/
def synthStep (acc : SynResult) (m : SynMsg) :
    SynResult × List SynCb × Option (Except String SynResult) :=
  match m with
  | SynMsg.readErr msg => (acc, [SynCb.onError msg], some (Except.error msg))
  | SynMsg.binary data =>
      ({ acc with audioData := acc.audioData ++ data },
        [SynCb.onAudioFrame data], none)
  | SynMsg.badJson => (acc, [SynCb.onError "failed to unmarshal response"], none)
  | SynMsg.text t =>
      if t.event = EventTaskStarted then (acc, [], none)
      else if t.event = EventResultGenerated ∨ t.event = EventTaskFinished then
        let acc1 := match t.usage with
          | some n => { acc with usage := some n }
          | none => acc
        if t.event = EventTaskFinished then
          (acc1, [SynCb.onComplete], some (Except.ok acc1))
        else
          match t.sentence with
          | some s =>
              ({ acc1 with sentences := acc1.sentences ++ [s] },
                [SynCb.onSentence s], none)
          | none => (acc1, [SynCb.onMeta], none)
      else if t.event = EventTaskFailed then
        (acc, [SynCb.onError ("task failed: " ++ t.code ++ " - " ++ t.message)],
          some (Except.error ("task failed: " ++ t.code ++ " - " ++ t.message)))
      else (acc, [], none)

/-- How the `Call` receive loop ends on a finite trace: returning the
final result, returning an error, or blocked waiting for more messages
(the accumulator is carried for the blocked case). -/
inductive SynOutcome where
  | ok (res : SynResult)
  | err (msg : String)
  | blocked (acc : SynResult)
deriving DecidableEq

/-- The `Call` receive loop over a finite inbound trace. -/
def synthLoop : SynResult → List SynMsg → List SynCb × SynOutcome
  | acc, [] => ([], SynOutcome.blocked acc)
  | acc, m :: rest =>
    match synthStep acc m with
    | (_, cbs, some (Except.ok res)) => (cbs, SynOutcome.ok res)
    | (_, cbs, some (Except.error e)) => (cbs, SynOutcome.err e)
    | (acc1, cbs, none) =>
        let r := synthLoop acc1 rest
        (cbs ++ r.1, r.2)

/-- The empty `finalResult` allocated before the receive loop. -/
def emptySynResult : SynResult :=
  { audioData := [], sentences := [], usage := none }

/-- `SpeechSynthesizer.Call` after a successful dial and `run-task` write:
`OnOpen` first, then the receive loop, with the deferred `OnClose` firing
whenever `Call` returns. -/
def SpeechSynthesizer.call (msgs : List SynMsg) : List SynCb × SynOutcome :=
  match synthLoop emptySynResult msgs with
  | (cbs, SynOutcome.blocked a) => (SynCb.onOpen :: cbs, SynOutcome.blocked a)
  | (cbs, out) => (SynCb.onOpen :: (cbs ++ [SynCb.onClose]), out)

/-- Whether processing a message makes the receive loop exit; this depends
only on the message, never on the accumulator. -/
def synMsgExits : SynMsg → Bool
  | SynMsg.readErr _ => true
  | SynMsg.binary _ => false
  | SynMsg.badJson => false
  | SynMsg.text t => t.event == EventTaskFinished || t.event == EventTaskFailed

/-- The binary payloads the receive loop consumes from a trace, in arrival
order, up to its exit. -/
def inboundAudio : List SynMsg → List (List Nat)
  | [] => []
  | m :: rest =>
    if synMsgExits m then []
    else match m with
      | SynMsg.binary d => d :: inboundAudio rest
      | _ => inboundAudio rest

/-- The sentence values of the `result-generated` messages the receive
loop consumes from a trace, in arrival order, up to its exit. -/
def inboundSentences : List SynMsg → List String
  | [] => []
  | m :: rest =>
    if synMsgExits m then []
    else match m with
      | SynMsg.text t =>
          if t.event = EventResultGenerated then
            match t.sentence with
            | some s => s :: inboundSentences rest
            | none => inboundSentences rest
          else inboundSentences rest
      | _ => inboundSentences rest

/-- The audio frames forwarded to the callback, in dispatch order. -/
def audioFramesDispatched : List SynCb → List (List Nat)
  | [] => []
  | SynCb.onAudioFrame d :: rest => d :: audioFramesDispatched rest
  | _ :: rest => audioFramesDispatched rest

/-- The sentence values forwarded to the callback, in dispatch order. -/
def sentencesDispatched : List SynCb → List String
  | [] => []
  | SynCb.onSentence s :: rest => s :: sentencesDispatched rest
  | _ :: rest => sentencesDispatched rest

/-- A recognition text message with the given optional event value,
optional error message and optional payload. -/
def recEventMsg (e : Option String) (em : Option String) (p : Option RecPayload) :
    RecInMsg :=
  RecInMsg.text { header := some { event := e, errorMessage := em }, payload := p }

/-- A dialog text message with the given directive, dialog id and text. -/
def mmdDirectiveMsg (dir did txt : String) : MMDInMsg :=
  MMDInMsg.text { directive := dir, dialogID := did, text := txt }

/-- A synthesizer text message with the given event, optional usage and
optional sentence (empty error code/message). -/
def synEventMsg (e : String) (u : Option Nat) (s : Option String) : SynMsg :=
  SynMsg.text { event := e, code := "", message := "", usage := u, sentence := s }

/-- Scenario B style trace: two audio frames around a sentence-bearing
`result-generated` message, ended by `task-finished` with usage 7. -/
def demoSynMsgs : List SynMsg :=
  [SynMsg.binary [1, 2],
   SynMsg.text { event := EventResultGenerated, code := "", message := "",
                 usage := none, sentence := some "s1" },
   SynMsg.binary [3],
   SynMsg.text { event := EventTaskFinished, code := "", message := "",
                 usage := some 7, sentence := none }]

lemma backoffIter_shift (w s : Nat) :
    ∀ m, backoffIter (backoffUpdate w (s + 1)) (s + 1) m = backoffIter w s (m + 1) := by
  intro m
  induction m with
  | zero => simp [backoffIter]
  | succ m ih =>
      show backoffUpdate (backoffIter (backoffUpdate w (s + 1)) (s + 1) m) (s + 1 + m + 1)
          = backoffUpdate (backoffIter w s (m + 1)) (s + (m + 1) + 1)
      rw [ih]
      congr 1
      omega

lemma waitForTaskLoop_get? (getTask : Nat → Except String TaskResponse) :
    ∀ fuel w s j a,
      ((waitForTaskLoop getTask fuel w s).2).get? j = some a →
      a = backoffIter w s (j + 1) := by
  intro fuel
  induction fuel with
  | zero => intro w s j a h; simp [waitForTaskLoop] at h
  | succ fuel ih =>
      intro w s j a h
      rw [waitForTaskLoop] at h
      cases hg : getTask (s + 1) with
      | error e => rw [hg] at h; simp at h
      | ok resp =>
          rw [hg] at h
          by_cases ht : isTerminalStatus resp.output.taskStatus
          · simp [ht] at h
          · simp only [ht, if_neg, Bool.false_eq_true, if_false] at h
            cases j with
            | zero =>
                simp at h
                subst h
                simp [backoffIter]
            | succ j =>
                simp at h
                have h2 : ((waitForTaskLoop getTask fuel (backoffUpdate w (s + 1))
                    (s + 1)).2).get? j = some a := by
                  simpa [List.get?_eq_getElem?] using h
                have := ih (backoffUpdate w (s + 1)) (s + 1) j a h2
                rw [this, backoffIter_shift]

lemma two_pow_div_three_succ (m : Nat) :
    backoffUpdate (min 5 (2 ^ (m / 3))) (m + 1) = min 5 (2 ^ ((m + 1) / 3)) := by
  unfold backoffUpdate
  by_cases hm : (m + 1) % 3 = 0
  · have hdvd : 3 ∣ m + 1 := Nat.dvd_of_mod_eq_zero hm
    have hq : (m + 1) / 3 = m / 3 + 1 := by
      omega
    by_cases h5 : (2 : Nat) ^ (m / 3) < 5
    · have hmin : min 5 (2 ^ (m / 3)) = 2 ^ (m / 3) :=
        min_eq_right (le_of_lt h5)
      rw [hmin, if_pos ⟨h5, hm⟩, hq, pow_succ]
      omega
    · push_neg at h5
      have hmin : min 5 (2 ^ (m / 3)) = 5 := min_eq_left h5
      rw [hmin, if_neg (by omega), hq]
      have h5s : (5 : Nat) ≤ 2 ^ (m / 3 + 1) := by
        calc (5 : Nat) ≤ 2 ^ (m / 3) := h5
        _ ≤ 2 ^ (m / 3 + 1) := Nat.pow_le_pow_right (by omega) (Nat.le_succ _)
      omega
  · have hq : (m + 1) / 3 = m / 3 := by omega
    rw [if_neg (by omega), hq]

lemma backoffIter_closed : ∀ n, backoffIter 1 0 n = min 5 (2 ^ (n / 3)) := by
  intro n
  induction n with
  | zero => simp [backoffIter]
  | succ n ih =>
      show backoffUpdate (backoffIter 1 0 n) (0 + n + 1) = _
      rw [ih]
      have := two_pow_div_three_succ n
      simpa using this

lemma pollWaits_get? (getTask : Nat → Except String TaskResponse)
    (fuel j a : Nat) (h : (pollWaits getTask fuel).get? j = some a) :
    a = min 5 (2 ^ ((j + 1) / 3)) := by
  have := waitForTaskLoop_get? getTask fuel 1 0 j a h
  rw [this, backoffIter_closed]

lemma le_backoffUpdate (w s : Nat) : w ≤ backoffUpdate w s := by
  unfold backoffUpdate
  split
  · next hc => exact le_min (by omega) (le_of_lt hc.1)
  · exact le_rfl

lemma stop_of_not_running (r : RecognitionState) (b : Bool)
    (h : r.running = false) : Recognition.stop r b = r := by
  simp [Recognition.stop, h]

lemma stop_running_false (r : RecognitionState) (b : Bool) :
    (Recognition.stop r b).running = false := by
  by_cases h : r.running = true
  · simp [Recognition.stop, h]
  · simp only [Bool.not_eq_true] at h
    rw [stop_of_not_running r b h, h]

/-- C1 counterexample: right after a successful `Start` — before any
`Started`/`task-started` acknowledgment has been observed —
`Recognition.SendAudioFrame` succeeds and transmits the frame, and
`MultiModalDialog.SendAudio` likewise transmits unconditionally; neither
returns a NotReadyError. -/
theorem sendAudio_before_started_counterexample :
    startedNotObservedState.running = true ∧
    startedNotObservedState.startedObserved = false ∧
    (Recognition.sendAudioFrame startedNotObservedState true [7]).1 = Except.ok () ∧
    (Recognition.sendAudioFrame startedNotObservedState true [7]).2.sent =
      startedNotObservedState.sent ++ [RecOutMsg.binaryFrame [7]] ∧
    dialogAfterStart.startedObserved = false ∧
    (MultiModalDialog.sendAudio dialogAfterStart true [7]).1 = Except.ok () ∧
    (MultiModalDialog.sendAudio dialogAfterStart true [7]).2.sent =
      dialogAfterStart.sent ++ [MMDOut.binaryFrame [7]] := by decide

/-- C1 amended: `Recognition.SendAudioFrame` is rejected (with
`recognition not running`, untransmitted) exactly when the `running` flag
is false; when `running` is true the frame is transmitted regardless of
whether the Started event has been observed.  `MultiModalDialog.SendAudio`
performs no readiness check and always transmits the frame. -/
theorem sendAudio_readiness_spec (r : RecognitionState) (d : DialogState)
    (data : List Nat) :
    (r.running = false →
      Recognition.sendAudioFrame r true data =
        (Except.error "recognition not running", r)) ∧
    (r.running = true →
      Recognition.sendAudioFrame r true data =
        (Except.ok (), { r with sent := r.sent ++ [RecOutMsg.binaryFrame data] })) ∧
    MultiModalDialog.sendAudio d true data =
      (Except.ok (), { d with sent := d.sent ++ [MMDOut.binaryFrame data] }) := by
  refine ⟨?_, ?_, ?_⟩
  · intro h; simp [Recognition.sendAudioFrame, h]
  · intro h; simp [Recognition.sendAudioFrame, h]
  · simp [MultiModalDialog.sendAudio]

/-- Witness for `sendAudio_readiness_spec` at the freshly constructed
(non-running) recognition client. -/
theorem sendAudio_readiness_spec_witness :
    initialRecognition.running = false ∧
    Recognition.sendAudioFrame initialRecognition true [7] =
      (Except.error "recognition not running", initialRecognition) :=
  ⟨rfl, (sendAudio_readiness_spec initialRecognition initialDialog [7]).1 rfl⟩

/-- C7: `Recognition.Stop` on a running session writes the `finish-task`
control message; if the reader loop terminates within the 10-second window
the connection is not force-closed, and if the timeout elapses first the
websocket connection is force-closed; either way `running` is reset. -/
theorem stop_running_spec (r : RecognitionState) (h : r.running = true) :
    (Recognition.stop r true).sent = r.sent ++ [RecOutMsg.finishTask r.taskID] ∧
    (Recognition.stop r true).forceClosed = r.forceClosed ∧
    (Recognition.stop r true).connOpen = r.connOpen ∧
    (Recognition.stop r true).running = false ∧
    (Recognition.stop r false).sent = r.sent ++ [RecOutMsg.finishTask r.taskID] ∧
    (Recognition.stop r false).forceClosed = true ∧
    (Recognition.stop r false).connOpen = false ∧
    (Recognition.stop r false).running = false := by
  simp [Recognition.stop, h]

/-- Witness for `stop_running_spec` at the state right after `Start`:
timing out force-closes the connection. -/
theorem stop_running_spec_witness :
    startedNotObservedState.running = true ∧
    (Recognition.stop startedNotObservedState false).forceClosed = true :=
  ⟨by decide, (stop_running_spec startedNotObservedState (by decide)).2.2.2.2.2.1⟩

/-- C9: `Recognition.Start` while `running` is already true returns the
error `recognition already started` and leaves the whole session state
unchanged. -/
theorem start_already_started (r : RecognitionState) (newTaskID : String)
    (dialOK writeOK : Bool) (h : r.running = true) :
    Recognition.start r newTaskID dialOK writeOK =
      (Except.error "recognition already started", r) := by
  simp [Recognition.start, h]

/-- Witness for `start_already_started` at the state right after a
successful `Start`. -/
theorem start_already_started_witness :
    startedNotObservedState.running = true ∧
    Recognition.start startedNotObservedState "t2" true true =
      (Except.error "recognition already started", startedNotObservedState) :=
  ⟨by decide, start_already_started startedNotObservedState "t2" true true (by decide)⟩

/-- C10: `Recognition.Stop` while `running` is false returns immediately
with the state unchanged (no finish-task message, no close, no callback),
and `Stop` is idempotent: a second consecutive `Stop` is a no-op. -/
theorem stop_not_running_noop (r : RecognitionState) (b b2 : Bool) :
    (r.running = false → Recognition.stop r b = r) ∧
    Recognition.stop (Recognition.stop r b) b2 = Recognition.stop r b := by
  exact ⟨stop_of_not_running r b,
    stop_of_not_running _ b2 (stop_running_false r b)⟩

/-- Witness for `stop_not_running_noop` at the freshly constructed
(non-running) recognition client. -/
theorem stop_not_running_noop_witness :
    initialRecognition.running = false ∧
    Recognition.stop initialRecognition true = initialRecognition :=
  ⟨rfl, (stop_not_running_noop initialRecognition true true).1 rfl⟩

lemma audioFramesDispatched_append (l1 l2 : List SynCb) :
    audioFramesDispatched (l1 ++ l2) =
      audioFramesDispatched l1 ++ audioFramesDispatched l2 := by
  induction l1 with
  | nil => rfl
  | cons c rest ih => cases c <;> simp [audioFramesDispatched, ih]

lemma sentencesDispatched_append (l1 l2 : List SynCb) :
    sentencesDispatched (l1 ++ l2) =
      sentencesDispatched l1 ++ sentencesDispatched l2 := by
  induction l1 with
  | nil => rfl
  | cons c rest ih => cases c <;> simp [sentencesDispatched, ih]

lemma ev_started_ne_finished : EventTaskStarted ≠ EventTaskFinished := by decide

lemma ev_started_ne_failed : EventTaskStarted ≠ EventTaskFailed := by decide

lemma ev_started_ne_result : EventTaskStarted ≠ EventResultGenerated := by decide

lemma ev_result_ne_finished : EventResultGenerated ≠ EventTaskFinished := by
  decide

lemma ev_result_ne_failed : EventResultGenerated ≠ EventTaskFailed := by decide

lemma ev_finished_ne_started : EventTaskFinished ≠ EventTaskStarted := by decide

lemma ev_result_ne_started : EventResultGenerated ≠ EventTaskStarted := by
  decide

lemma ev_failed_ne_started : EventTaskFailed ≠ EventTaskStarted := by decide

lemma ev_failed_ne_result : EventTaskFailed ≠ EventResultGenerated := by decide

lemma ev_failed_ne_finished : EventTaskFailed ≠ EventTaskFinished := by decide

lemma synthLoop_cons (acc : SynResult) (m : SynMsg) (rest : List SynMsg) :
    synthLoop acc (m :: rest) =
      match synthStep acc m with
      | (_, cbs2, some (Except.ok r0)) => (cbs2, SynOutcome.ok r0)
      | (_, cbs2, some (Except.error e)) => (cbs2, SynOutcome.err e)
      | (acc1, cbs2, none) =>
          (cbs2 ++ (synthLoop acc1 rest).1, (synthLoop acc1 rest).2) := rfl

lemma synthLoop_cons_cont (acc acc1 : SynResult) (m : SynMsg)
    (cbsh : List SynCb) (rest : List SynMsg)
    (hstep : synthStep acc m = (acc1, cbsh, none)) :
    synthLoop acc (m :: rest) =
      (cbsh ++ (synthLoop acc1 rest).1, (synthLoop acc1 rest).2) := by
  rw [synthLoop_cons, hstep]

lemma synthLoop_cons_ok (acc acc1 r0 : SynResult) (m : SynMsg)
    (cbsh : List SynCb) (rest : List SynMsg)
    (hstep : synthStep acc m = (acc1, cbsh, some (Except.ok r0))) :
    synthLoop acc (m :: rest) = (cbsh, SynOutcome.ok r0) := by
  rw [synthLoop_cons, hstep]

lemma synthLoop_cons_err (acc acc1 : SynResult) (m : SynMsg) (e : String)
    (cbsh : List SynCb) (rest : List SynMsg)
    (hstep : synthStep acc m = (acc1, cbsh, some (Except.error e))) :
    synthLoop acc (m :: rest) = (cbsh, SynOutcome.err e) := by
  rw [synthLoop_cons, hstep]

lemma synthLoop_ok_spec :
    ∀ (msgs : List SynMsg) (acc : SynResult) (cbs : List SynCb) (res : SynResult),
      synthLoop acc msgs = (cbs, SynOutcome.ok res) →
      res.audioData = acc.audioData ++ (inboundAudio msgs).flatten ∧
      audioFramesDispatched cbs = inboundAudio msgs ∧
      res.sentences = acc.sentences ++ inboundSentences msgs ∧
      sentencesDispatched cbs = inboundSentences msgs := by
  intro msgs
  induction msgs with
  | nil =>
      intro acc cbs res h
      simp [synthLoop] at h
  | cons m rest ih =>
      intro acc cbs res h
      cases m with
      | readErr msg =>
          rw [synthLoop_cons_err acc acc (SynMsg.readErr msg) msg
            [SynCb.onError msg] rest rfl] at h
          exact absurd (congrArg Prod.snd h) (by simp)
      | binary data =>
          rw [synthLoop_cons_cont acc { acc with audioData := acc.audioData ++ data }
            (SynMsg.binary data) [SynCb.onAudioFrame data] rest rfl] at h
          rcases hr : synthLoop { acc with audioData := acc.audioData ++ data }
            rest with ⟨cbs2, out2⟩
          rw [hr] at h
          have hc : [SynCb.onAudioFrame data] ++ cbs2 = cbs := congrArg Prod.fst h
          have ho : out2 = SynOutcome.ok res := congrArg Prod.snd h
          subst ho
          subst hc
          obtain ⟨ha, hf, hs, hd⟩ := ih _ cbs2 res hr
          refine ⟨?_, ?_, ?_, ?_⟩ <;>
            simp [inboundAudio, inboundSentences, synMsgExits,
              audioFramesDispatched, sentencesDispatched, ha, hf, hs, hd,
              List.append_assoc]
      | badJson =>
          rw [synthLoop_cons_cont acc acc SynMsg.badJson
            [SynCb.onError "failed to unmarshal response"] rest rfl] at h
          rcases hr : synthLoop acc rest with ⟨cbs2, out2⟩
          rw [hr] at h
          have hc : [SynCb.onError "failed to unmarshal response"] ++ cbs2 = cbs :=
            congrArg Prod.fst h
          have ho : out2 = SynOutcome.ok res := congrArg Prod.snd h
          subst ho
          subst hc
          obtain ⟨ha, hf, hs, hd⟩ := ih _ cbs2 res hr
          refine ⟨?_, ?_, ?_, ?_⟩ <;>
            simp [inboundAudio, inboundSentences, synMsgExits,
              audioFramesDispatched, sentencesDispatched, ha, hf, hs, hd]
      | text t =>
          by_cases h1 : t.event = EventTaskStarted
          · have hstep : synthStep acc (SynMsg.text t) = (acc, [], none) := by
              simp [synthStep, h1]
            rw [synthLoop_cons_cont acc acc (SynMsg.text t) [] rest hstep] at h
            rcases hr : synthLoop acc rest with ⟨cbs2, out2⟩
            rw [hr] at h
            have hc : [] ++ cbs2 = cbs := congrArg Prod.fst h
            have ho : out2 = SynOutcome.ok res := congrArg Prod.snd h
            subst ho
            rw [List.nil_append] at hc
            subst hc
            obtain ⟨ha, hf, hs, hd⟩ := ih _ cbs2 res hr
            refine ⟨?_, ?_, ?_, ?_⟩ <;>
              simp [inboundAudio, inboundSentences, synMsgExits, h1,
                ev_started_ne_finished, ev_started_ne_failed,
                ev_started_ne_result, audioFramesDispatched,
                sentencesDispatched, ha, hf, hs, hd]
          · by_cases h2 : t.event = EventTaskFinished
            · cases hu : t.usage with
              | none =>
                  have hstep : synthStep acc (SynMsg.text t) =
                      (acc, [SynCb.onComplete], some (Except.ok acc)) := by
                    simp [synthStep, h2, hu, ev_finished_ne_started]
                  rw [synthLoop_cons_ok acc acc acc (SynMsg.text t)
                    [SynCb.onComplete] rest hstep] at h
                  have hc : [SynCb.onComplete] = cbs := congrArg Prod.fst h
                  have ho : acc = res :=
                    SynOutcome.ok.inj (congrArg Prod.snd h)
                  subst hc
                  subst ho
                  refine ⟨?_, ?_, ?_, ?_⟩ <;>
                    simp [inboundAudio, inboundSentences, synMsgExits, h2,
                      audioFramesDispatched, sentencesDispatched]
              | some n =>
                  have hstep : synthStep acc (SynMsg.text t) =
                      ({ acc with usage := some n }, [SynCb.onComplete],
                        some (Except.ok { acc with usage := some n })) := by
                    simp [synthStep, h2, hu, ev_finished_ne_started]
                  rw [synthLoop_cons_ok acc { acc with usage := some n }
                    { acc with usage := some n } (SynMsg.text t)
                    [SynCb.onComplete] rest hstep] at h
                  have hc : [SynCb.onComplete] = cbs := congrArg Prod.fst h
                  have ho : { acc with usage := some n } = res :=
                    SynOutcome.ok.inj (congrArg Prod.snd h)
                  subst hc
                  rw [← ho]
                  refine ⟨?_, ?_, ?_, ?_⟩ <;>
                    simp [inboundAudio, inboundSentences, synMsgExits, h2,
                      audioFramesDispatched, sentencesDispatched]
            · by_cases h3 : t.event = EventResultGenerated
              · cases hu : t.usage with
                | none =>
                    cases hsn : t.sentence with
                    | none =>
                        have hstep : synthStep acc (SynMsg.text t) =
                            (acc, [SynCb.onMeta], none) := by
                          simp [synthStep, h3, hu, hsn, ev_result_ne_started,
                            ev_result_ne_finished]
                        rw [synthLoop_cons_cont acc acc (SynMsg.text t)
                          [SynCb.onMeta] rest hstep] at h
                        rcases hr : synthLoop acc rest with ⟨cbs2, out2⟩
                        rw [hr] at h
                        have hc : [SynCb.onMeta] ++ cbs2 = cbs :=
                          congrArg Prod.fst h
                        have ho : out2 = SynOutcome.ok res := congrArg Prod.snd h
                        subst ho
                        subst hc
                        obtain ⟨ha, hf, hs, hd⟩ := ih _ cbs2 res hr
                        refine ⟨?_, ?_, ?_, ?_⟩ <;>
                          simp [inboundAudio, inboundSentences, synMsgExits, h3,
                            ev_result_ne_finished, ev_result_ne_failed, hsn,
                            audioFramesDispatched, sentencesDispatched,
                            ha, hf, hs, hd]
                    | some s =>
                        have hstep : synthStep acc (SynMsg.text t) =
                            ({ acc with sentences := acc.sentences ++ [s] },
                              [SynCb.onSentence s], none) := by
                          simp [synthStep, h3, hu, hsn, ev_result_ne_started,
                            ev_result_ne_finished]
                        rw [synthLoop_cons_cont acc
                          { acc with sentences := acc.sentences ++ [s] }
                          (SynMsg.text t) [SynCb.onSentence s] rest hstep] at h
                        rcases hr : synthLoop
                          { acc with sentences := acc.sentences ++ [s] } rest
                          with ⟨cbs2, out2⟩
                        rw [hr] at h
                        have hc : [SynCb.onSentence s] ++ cbs2 = cbs :=
                          congrArg Prod.fst h
                        have ho : out2 = SynOutcome.ok res := congrArg Prod.snd h
                        subst ho
                        subst hc
                        obtain ⟨ha, hf, hs, hd⟩ := ih _ cbs2 res hr
                        refine ⟨?_, ?_, ?_, ?_⟩ <;>
                          simp [inboundAudio, inboundSentences, synMsgExits, h3,
                            ev_result_ne_finished, ev_result_ne_failed, hsn,
                            audioFramesDispatched, sentencesDispatched,
                            ha, hf, hs, hd, List.append_assoc]
                | some n =>
                    cases hsn : t.sentence with
                    | none =>
                        have hstep : synthStep acc (SynMsg.text t) =
                            ({ acc with usage := some n }, [SynCb.onMeta],
                              none) := by
                          simp [synthStep, h3, hu, hsn, ev_result_ne_started,
                            ev_result_ne_finished]
                        rw [synthLoop_cons_cont acc { acc with usage := some n }
                          (SynMsg.text t) [SynCb.onMeta] rest hstep] at h
                        rcases hr : synthLoop { acc with usage := some n } rest
                          with ⟨cbs2, out2⟩
                        rw [hr] at h
                        have hc : [SynCb.onMeta] ++ cbs2 = cbs :=
                          congrArg Prod.fst h
                        have ho : out2 = SynOutcome.ok res := congrArg Prod.snd h
                        subst ho
                        subst hc
                        obtain ⟨ha, hf, hs, hd⟩ := ih _ cbs2 res hr
                        refine ⟨?_, ?_, ?_, ?_⟩ <;>
                          simp [inboundAudio, inboundSentences, synMsgExits, h3,
                            ev_result_ne_finished, ev_result_ne_failed, hsn,
                            audioFramesDispatched, sentencesDispatched,
                            ha, hf, hs, hd]
                    | some s =>
                        have hstep : synthStep acc (SynMsg.text t) =
                            ({ acc with usage := some n, sentences := acc.sentences ++ [s] },
                              [SynCb.onSentence s], none) := by
                          simp [synthStep, h3, hu, hsn, ev_result_ne_started,
                            ev_result_ne_finished]
                        rw [synthLoop_cons_cont acc
                          { acc with usage := some n, sentences := acc.sentences ++ [s] }
                          (SynMsg.text t) [SynCb.onSentence s] rest hstep] at h
                        rcases hr : synthLoop
                          { acc with usage := some n, sentences := acc.sentences ++ [s] }
                          rest with ⟨cbs2, out2⟩
                        rw [hr] at h
                        have hc : [SynCb.onSentence s] ++ cbs2 = cbs :=
                          congrArg Prod.fst h
                        have ho : out2 = SynOutcome.ok res := congrArg Prod.snd h
                        subst ho
                        subst hc
                        obtain ⟨ha, hf, hs, hd⟩ := ih _ cbs2 res hr
                        refine ⟨?_, ?_, ?_, ?_⟩ <;>
                          simp [inboundAudio, inboundSentences, synMsgExits, h3,
                            ev_result_ne_finished, ev_result_ne_failed, hsn,
                            audioFramesDispatched, sentencesDispatched,
                            ha, hf, hs, hd, List.append_assoc]
              · by_cases h4 : t.event = EventTaskFailed
                · have hstep : synthStep acc (SynMsg.text t) =
                      (acc, [SynCb.onError ("task failed: " ++ t.code ++ " - " ++
                        t.message)], some (Except.error ("task failed: " ++
                        t.code ++ " - " ++ t.message))) := by
                    simp [synthStep, h4, ev_failed_ne_started,
                      ev_failed_ne_result, ev_failed_ne_finished]
                  rw [synthLoop_cons_err acc acc (SynMsg.text t) _ _ rest hstep] at h
                  exact absurd (congrArg Prod.snd h) (by simp)
                · have hstep : synthStep acc (SynMsg.text t) = (acc, [], none) := by
                    simp [synthStep, h1, h2, h3, h4]
                  rw [synthLoop_cons_cont acc acc (SynMsg.text t) [] rest hstep] at h
                  rcases hr : synthLoop acc rest with ⟨cbs2, out2⟩
                  rw [hr] at h
                  have hc : [] ++ cbs2 = cbs := congrArg Prod.fst h
                  have ho : out2 = SynOutcome.ok res := congrArg Prod.snd h
                  subst ho
                  rw [List.nil_append] at hc
                  subst hc
                  obtain ⟨ha, hf, hs, hd⟩ := ih _ cbs2 res hr
                  refine ⟨?_, ?_, ?_, ?_⟩ <;>
                    simp [inboundAudio, inboundSentences, synMsgExits, h2, h3,
                      h4, audioFramesDispatched, sentencesDispatched, ha, hf,
                      hs, hd]

/-- C6: whenever the synthesizer receive loop ends with `task-finished`,
the returned result's `AudioData` is the concatenation, in arrival order,
of exactly the binary messages received, each of which was forwarded
unmodified to the callback as an audio frame, and the returned sentence
list is exactly the sentence payloads collected from the
`result-generated` messages (each also dispatched to the callback). -/
theorem synth_call_result_spec (msgs : List SynMsg) (cbs : List SynCb)
    (res : SynResult)
    (h : SpeechSynthesizer.call msgs = (cbs, SynOutcome.ok res)) :
    res.audioData = (inboundAudio msgs).flatten ∧
    audioFramesDispatched cbs = inboundAudio msgs ∧
    res.sentences = inboundSentences msgs ∧
    sentencesDispatched cbs = inboundSentences msgs := by
  rcases hr : synthLoop emptySynResult msgs with ⟨cbs2, out2⟩
  rw [SpeechSynthesizer.call, hr] at h
  cases out2 with
  | blocked a => simp at h
  | err e => simp at h
  | ok r0 =>
      have hc : SynCb.onOpen :: (cbs2 ++ [SynCb.onClose]) = cbs :=
        congrArg Prod.fst h
      have ho : r0 = res := SynOutcome.ok.inj (congrArg Prod.snd h)
      subst ho
      subst hc
      obtain ⟨ha, hf, hs, hd⟩ := synthLoop_ok_spec msgs emptySynResult cbs2 r0 hr
      refine ⟨?_, ?_, ?_, ?_⟩ <;>
        simp [audioFramesDispatched, sentencesDispatched,
          audioFramesDispatched_append, sentencesDispatched_append,
          emptySynResult, ha, hf, hs, hd]

/-- Witness for `synth_call_result_spec` on the Scenario B style trace. -/
theorem synth_call_result_spec_witness :
    SpeechSynthesizer.call demoSynMsgs =
      ([SynCb.onOpen, SynCb.onAudioFrame [1, 2], SynCb.onSentence "s1",
        SynCb.onAudioFrame [3], SynCb.onComplete, SynCb.onClose],
        SynOutcome.ok { audioData := [1, 2, 3], sentences := ["s1"], usage := some 7 }) ∧
    ({ audioData := [1, 2, 3], sentences := ["s1"], usage := some 7 } : SynResult).audioData =
      (inboundAudio demoSynMsgs).flatten :=
  ⟨by decide,
    (synth_call_result_spec demoSynMsgs
      [SynCb.onOpen, SynCb.onAudioFrame [1, 2], SynCb.onSentence "s1",
        SynCb.onAudioFrame [3], SynCb.onComplete, SynCb.onClose]
      { audioData := [1, 2, 3], sentences := ["s1"], usage := some 7 }
      (by decide)).1⟩

/-- C3 counterexample: in the multimodal dialog session, an inbound `Error`
directive with text `Y` dispatches `OnError` with `server error: Y` (no
error code) and the reader loop does NOT terminate: a following
`SpeechStarted` event is still dispatched afterwards. -/
theorem error_event_counterexample :
    (MultiModalDialog.readLoop errorThenSpeechMsgs "").1 =
      [MMDCb.onError "server error: Y", MMDCb.onSpeechStarted] ∧
    (MultiModalDialog.readLoop errorThenSpeechMsgs "").2.2 = LoopExit.blocked := by
  decide

/-- C3 amended: in the recognition session a `task-failed` event dispatches
`OnError` embedding the server error message and terminates the reader loop
with only the deferred `OnClose` following, for any remaining trace; in
the multimodal dialog session an `Error` directive dispatches `OnError`
embedding the payload text and the reader loop continues, processing the
remaining trace exactly as it would have without the error. -/
theorem error_event_amended (em : Option String) (p : Option RecPayload)
    (rest : List RecInMsg) (y d : String) (mrest : List MMDInMsg) :
    Recognition.readLoop (recEventMsg (some "task-failed") em p :: rest) true =
      ([RecCb.onError ("task failed: " ++ fmtValue em), RecCb.onClose],
        LoopExit.returned) ∧
    (MultiModalDialog.readLoop
        (mmdDirectiveMsg ResponseError "" y :: mrest) d).1 =
      MMDCb.onError ("server error: " ++ y) :: (MultiModalDialog.readLoop mrest d).1 ∧
    (MultiModalDialog.readLoop
        (mmdDirectiveMsg ResponseError "" y :: mrest) d).2 =
      (MultiModalDialog.readLoop mrest d).2 := by
  refine ⟨?_, ?_, ?_⟩
  · simp [Recognition.readLoop, recReadLoopAux, recProcessMessage, recEventMsg]
  · rcases hr : mmdReadLoopAux mrest d with ⟨cbs2, d2, ex2⟩
    cases ex2 <;>
      simp [MultiModalDialog.readLoop, mmdReadLoopAux, mmdProcessMessage,
        mmdDirectiveMsg, ResponseStarted, ResponseStopped, ResponseSpeechStarted,
        ResponseSpeechEnded, ResponseSpeechContent, ResponseRespondingStarted,
        ResponseRespondingContent, ResponseRespondingEnded, ResponseError, hr]
  · rcases hr : mmdReadLoopAux mrest d with ⟨cbs2, d2, ex2⟩
    cases ex2 <;>
      simp [MultiModalDialog.readLoop, mmdReadLoopAux, mmdProcessMessage,
        mmdDirectiveMsg, ResponseStarted, ResponseStopped, ResponseSpeechStarted,
        ResponseSpeechEnded, ResponseSpeechContent, ResponseRespondingStarted,
        ResponseRespondingContent, ResponseRespondingEnded, ResponseError, hr]

/-- C4 counterexample: a recognition text message with an unrecognized
event value is silently dropped — nothing at all is dispatched — and a
text message whose header lacks a string `event` value makes the reader
loop panic (Go's unchecked type assertion), so decoding is not total and
no Unknown variant is dispatched. -/
theorem unknown_event_counterexample :
    Recognition.readLoop [recEventMsg (some "totally-unknown") none none] true =
      ([], LoopExit.blocked) ∧
    Recognition.readLoop [recEventMsg none none none] true =
      ([RecCb.onClose], LoopExit.crashed) := by decide

/-- C4 amended: a recognition text message with an unrecognized event value
is skipped silently (no dispatch, no Unknown variant) and the loop
continues unchanged; a recognition text message whose header lacks a
string event value panics the loop; the speech synthesizer's receive loop
ignores unrecognized events silently without panicking. -/
theorem unknown_event_amended (e : String) (em : Option String)
    (p : Option RecPayload) (rest : List RecInMsg) (t : SynTextMsg)
    (acc : SynResult)
    (h1 : e ≠ "task-failed") (h2 : e ≠ "task-finished")
    (h3 : e ≠ "result-generated")
    (h4 : t.event ≠ EventTaskStarted) (h5 : t.event ≠ EventResultGenerated)
    (h6 : t.event ≠ EventTaskFinished) (h7 : t.event ≠ EventTaskFailed) :
    Recognition.readLoop (recEventMsg (some e) em p :: rest) true =
      Recognition.readLoop rest true ∧
    recProcessMessage true (recEventMsg none em p) = ([], StepRes.crashed) ∧
    synthStep acc (SynMsg.text t) = (acc, [], none) := by
  refine ⟨?_, ?_, ?_⟩
  · simp [Recognition.readLoop, recReadLoopAux, recProcessMessage, recEventMsg,
      h1, h2, h3]
  · simp [recProcessMessage, recEventMsg]
  · simp [synthStep, h4, h5, h6, h7]

/-- Witness for `unknown_event_amended` at the event value `mystery`. -/
theorem unknown_event_amended_witness :
    Recognition.readLoop [recEventMsg (some "mystery") none none] true =
      Recognition.readLoop [] true ∧
    recProcessMessage true (recEventMsg none none none) = ([], StepRes.crashed) ∧
    synthStep emptySynResult (synEventMsg "mystery" none none) =
      (emptySynResult, [], none) :=
  unknown_event_amended "mystery" none none []
    { event := "mystery", code := "", message := "", usage := none, sentence := none }
    emptySynResult (by decide) (by decide) (by decide) (by decide) (by decide)
    (by decide) (by decide)

/-- C2: in every execution of `WaitForTaskWithClient`, the sequence of waits
between successive status polls starts at 1 second, is non-decreasing, never
exceeds the 5-second cap, and changes exactly by the capped doubling rule at
every 3rd poll. -/
theorem wait_intervals_spec (getTask : Nat → Except String TaskResponse)
    (fuel : Nat) :
    (∀ a, (pollWaits getTask fuel).get? 0 = some a → a = 1) ∧
    (∀ w ∈ pollWaits getTask fuel, w ≤ 5) ∧
    (∀ j a b, (pollWaits getTask fuel).get? j = some a →
        (pollWaits getTask fuel).get? (j + 1) = some b →
        a ≤ b ∧ b = if a < 5 ∧ (j + 2) % 3 = 0 then min (a * 2) 5 else a) := by
  refine ⟨?_, ?_, ?_⟩
  · intro a h
    have := pollWaits_get? getTask fuel 0 a h
    simpa using this
  · intro w hw
    obtain ⟨j, hj⟩ := List.mem_iff_get?.1 hw
    have := pollWaits_get? getTask fuel j w hj
    rw [this]
    exact min_le_left _ _
  · intro j a b ha hb
    have hae := pollWaits_get? getTask fuel j a ha
    have hbe := pollWaits_get? getTask fuel (j + 1) b hb
    have hstep := two_pow_div_three_succ (j + 1)
    have hb2 : b = backoffUpdate a (j + 2) := by
      rw [hae, hbe]
      have : j + 1 + 1 = j + 2 := by omega
      rw [← hstep, this]
    constructor
    · rw [hb2]; exact le_backoffUpdate a (j + 2)
    · rw [hb2]; rfl

/-- Witness for `wait_intervals_spec` at the all-`RUNNING` oracle with fuel
4, reading off waits 2 and 2 at positions 2 and 3. -/
theorem wait_intervals_spec_witness :
    (2 : Nat) ≤ 2 ∧
    (2 : Nat) = if (2 : Nat) < 5 ∧ (2 + 2) % 3 = 0 then min (2 * 2) 5 else 2 :=
  (wait_intervals_spec runningOracle 4).2.2 2 2 2 (by decide) (by decide)

/-- C5: a poll whose status read succeeds and reports `FAILED` or `CANCELED`
makes `WaitForTaskWithClient` return that snapshot as a normal (`ok`)
result, not as an error value. -/
theorem terminal_status_normal_result (getTask : Nat → Except String TaskResponse)
    (fuel w s : Nat) (resp : TaskResponse)
    (hpoll : getTask (s + 1) = Except.ok resp)
    (hterm : resp.output.taskStatus = TaskStatusFailed ∨
             resp.output.taskStatus = TaskStatusCanceled) :
    (waitForTaskLoop getTask (fuel + 1) w s).1 = Except.ok resp := by
  have ht : isTerminalStatus resp.output.taskStatus = true := by
    rcases hterm with h | h <;> (simp only [isTerminalStatus, h]; decide)
  simp [waitForTaskLoop, hpoll, ht]

/-- Witness for `terminal_status_normal_result` at an oracle reporting
`FAILED` on the first poll. -/
theorem terminal_status_normal_result_witness :
    failedOracle 1 = Except.ok failedResp ∧
    (waitForTaskLoop failedOracle 1 1 0).1 = Except.ok failedResp :=
  ⟨rfl, terminal_status_normal_result failedOracle 0 1 0 failedResp rfl (Or.inl rfl)⟩

/-- C8 counterexample: on polls reporting `RUNNING`, `RUNNING`, `SUCCEEDED`,
the loop performs waits `[1, 1]` — not `[1, 1, 2]` as claimed — because the
terminal third poll returns before any further wait; the returned snapshot is
the terminal `SUCCEEDED` one. -/
theorem scenarioA_counterexample :
    (WaitForTaskWithClient scenarioOracle 10).2 = [1, 1] ∧
    (WaitForTaskWithClient scenarioOracle 10).2 ≠ [1, 1, 2] ∧
    (WaitForTaskWithClient scenarioOracle 10).1 =
      Except.ok (mkTaskResponse TaskStatusSucceeded) := by decide

/-- C8 amended: when the three successive polls report `RUNNING`, `RUNNING`,
`SUCCEEDED`, the waits between polls are 1 and 1 (total elapsed wait 2 time
units; no wait follows the terminal third poll), and the call returns the
terminal `SUCCEEDED` snapshot. -/
theorem scenarioA_amended :
    (WaitForTaskWithClient scenarioOracle 10).2 = [1, 1] ∧
    ((WaitForTaskWithClient scenarioOracle 10).2).sum = 2 ∧
    (WaitForTaskWithClient scenarioOracle 10).1 =
      Except.ok (mkTaskResponse TaskStatusSucceeded) := by decide

end GoDashscope
